import Mathlib

set_option maxRecDepth 100000

/-!
Verification of the rapa25test image-annotation pipeline.

This file gives a shallow embedding, in Lean 4, of the parts of the
repository that its specification makes claims about:

* `lib/db_uploader.py`  — `DatabaseUploader.get_next_file_id`,
  `upload_image_result`, `check_duplicate_by_path_and_hash`;
* `lib/gemini_analyzer.py` — the retry loop and response checks of
  `GeminiImageAnalyzer.analyze_image`, and `_parse_response`;
* `lib/ftp_client.py` — `FTPClient.download_file`;
* `lib/progress_tracker.py` / `lib/logger.py` — the outcome-recording
  operations `save_success`, `save_failed`, `save_skipped`.

Machine-level effects (SQL execution, network I/O, the filesystem) are made
explicit: query results and I/O outcomes are parameters of the embedded
functions, exceptions become `Except`/`Option` results, and JSON values are
an explicit inductive type.
-/

namespace Rapa25

/-! ## Basic string helpers

Python substring tests (`"500" in msg`, `str.replace`, `str.find`/`rfind`)
are modelled over `List Char` so that every definition evaluates inside the
kernel. -/

/-- The character `{` (written via its code so JSON sample strings stay plain). -/
def lbraceChar : Char := Char.ofNat 123

/-- The character `}`. -/
def rbraceChar : Char := Char.ofNat 125

/-- The character `"`. -/
def quoteChar : Char := Char.ofNat 34

/-- Does `needle` occur as a prefix of `hay`? -/
def charsStartWith : List Char → List Char → Bool
  | _, [] => true
  | [], _ :: _ => false
  | c :: cs, d :: ds => c == d && charsStartWith cs ds

/-- Does `needle` occur as a contiguous sublist of `hay`?  Models the Python
substring test `needle in hay`. -/
def charsHave : List Char → List Char → Bool
  | [], needle => needle.isEmpty
  | c :: cs, needle => charsStartWith (c :: cs) needle || charsHave cs needle

/-- Python `needle in hay` on strings. -/
def strContains (hay needle : String) : Bool :=
  charsHave hay.toList needle.toList

/-- ASCII lowering of one character (the error messages the code lowers are
ASCII). -/
def charLower (c : Char) : Char :=
  if 'A' ≤ c && c ≤ 'Z' then Char.ofNat (c.toNat + 32) else c

/-- Python `s.lower()` on ASCII strings. -/
def strLower (s : String) : String :=
  String.mk (s.toList.map charLower)

/-- One step of left-to-right, non-overlapping replacement, with fuel.
Models Python `str.replace`. -/
def charsReplace : Nat → List Char → List Char → List Char → List Char
  | 0, hay, _, _ => hay
  | _ + 1, [], _, _ => []
  | fuel + 1, c :: cs, needle, repl =>
    if needle ≠ [] && charsStartWith (c :: cs) needle then
      repl ++ charsReplace fuel ((c :: cs).drop needle.length) needle repl
    else
      c :: charsReplace fuel cs needle repl

/-- Python `hay.replace(needle, repl)` (for non-empty `needle`). -/
def strReplace (hay needle repl : String) : String :=
  String.mk (charsReplace hay.length hay.toList needle.toList repl.toList)

/-! ## RecordStore: gap-reuse sequential-ID allocator

`DatabaseUploader.get_next_file_id` (lib/db_uploader.py:149-213) runs a SQL
query that (1) collects the numeric `raw_meta.File_info.Id` values, sorted
ascending, (2) numbers the rows `1, 2, 3, …` and returns the first row
number whose `id` differs from it, and — when no such gap exists — (3)
returns `COALESCE(MAX(id), 0) + 1`.  Any exception is caught and the
fallback ID `1` is returned.

The embedding takes the list of existing IDs (the parsed `File_info.Id`
values) and a flag `queryOk` saying whether the query succeeded. -/

/-- Scan a sorted list against the expected ordinals `pos, pos+1, …`;
return the first ordinal whose list value differs from it.  This is the
`SELECT row_num FROM numbered WHERE id != row_num ORDER BY row_num LIMIT 1`
part of the query. -/
def firstGap : List Nat → Nat → Option Nat
  | [], _ => none
  | x :: xs, pos => if x = pos then firstGap xs (pos + 1) else some pos

/-- `DatabaseUploader.get_next_file_id`.  `queryOk = false` is the
`except Exception` branch (query failure → fallback ID 1). -/
def get_next_file_id (queryOk : Bool) (ids : List Nat) : Nat :=
  if queryOk then
    let sorted := List.insertionSort (· ≤ ·) ids
    match firstGap sorted 1 with
    | some g => g
    | none => ids.foldr max 0 + 1
  else 1

/-! Supporting lemmas for the allocator. -/

theorem charsStartWith_nil (l : List Char) :
    charsStartWith l [] = true := by
  cases l <;> rfl

theorem charsStartWith_self_append (l t : List Char) :
    charsStartWith (l ++ t) l = true := by
  induction l with
  | nil => exact charsStartWith_nil t
  | cons c cs ih => simp [charsStartWith, ih]

theorem charsHave_nil_needle (l : List Char) :
    charsHave l [] = true := by
  cases l with
  | nil => rfl
  | cons c cs => simp [charsHave, charsStartWith_nil]

theorem charsHave_append_left (pre needle t : List Char) :
    charsHave (pre ++ needle ++ t) needle = true := by
  induction pre with
  | nil =>
    cases needle with
    | nil => exact charsHave_nil_needle t
    | cons d ds =>
      show (charsStartWith ((d :: ds) ++ t) (d :: ds) || charsHave (ds ++ t) (d :: ds)) = true
      rw [charsStartWith_self_append]
      simp
  | cons c cs ih =>
    cases needle with
    | nil => exact charsHave_nil_needle _
    | cons d ds =>
      show (charsStartWith (c :: (cs ++ (d :: ds) ++ t)) (d :: ds)
            || charsHave (cs ++ (d :: ds) ++ t) (d :: ds)) = true
      rw [ih]
      simp

/-- `strContains` really is substring occurrence. -/
theorem strContains_of_append (pre mid post : String) :
    strContains (pre ++ mid ++ post) mid = true := by
  have h : (pre ++ mid ++ post).data = pre.data ++ mid.data ++ post.data := by
    simp [String.data_append]
  show charsHave (pre ++ mid ++ post).data mid.data = true
  rw [h]
  exact charsHave_append_left pre.data mid.data post.data

theorem firstGap_some_spec (s : List Nat) (pos g : Nat)
    (hs : s.Sorted (· < ·)) (hpos : ∀ x ∈ s, pos ≤ x)
    (h : firstGap s pos = some g) :
    pos ≤ g ∧ g ∉ s ∧ ∀ m, pos ≤ m → m < g → m ∈ s := by
  induction s generalizing pos with
  | nil => simp [firstGap] at h
  | cons x xs ih =>
    have hx : pos ≤ x := hpos x (List.mem_cons_self x xs)
    by_cases hxp : x = pos
    · subst hxp
      simp only [firstGap, if_pos rfl] at h
      have hxs : ∀ y ∈ xs, x + 1 ≤ y := by
        intro y hy
        exact Nat.succ_le_of_lt ((List.sorted_cons.mp hs).1 y hy)
      obtain ⟨h1, h2, h3⟩ := ih (x + 1) (List.sorted_cons.mp hs).2 hxs h
      refine ⟨Nat.le_of_succ_le h1, ?_, ?_⟩
      · intro hg
        rcases List.mem_cons.mp hg with hg | hg
        · omega
        · exact h2 hg
      · intro m hm1 hm2
        by_cases hmx : m = x
        · exact hmx ▸ List.mem_cons_self x xs
        · exact List.mem_cons_of_mem x (h3 m (by omega) hm2)
    · simp only [firstGap, if_neg hxp] at h
      injection h with h
      subst h
      refine ⟨Nat.le_refl _, ?_, ?_⟩
      · intro hg2
        rcases List.mem_cons.mp hg2 with hg2 | hg2
        · omega
        · have := (List.sorted_cons.mp hs).1 _ hg2
          omega
      · intro m hm1 hm2
        omega

theorem firstGap_none_spec (s : List Nat) (pos : Nat)
    (h : firstGap s pos = none) :
    s = List.range' pos s.length := by
  induction s generalizing pos with
  | nil => rfl
  | cons x xs ih =>
    by_cases hxp : x = pos
    · subst hxp
      simp only [firstGap, if_pos rfl] at h
      have := ih (x + 1) h
      simp [List.range', List.length_cons]
      exact this
    · simp [firstGap, if_neg hxp] at h

theorem foldr_max_le (l : List Nat) (n : Nat) (h : ∀ x ∈ l, x ≤ n) :
    l.foldr max 0 ≤ n := by
  induction l with
  | nil => exact Nat.zero_le n
  | cons x xs ih =>
    simp only [List.foldr_cons]
    have hx := h x (List.mem_cons_self x xs)
    have hxs := ih (fun y hy => h y (List.mem_cons_of_mem x hy))
    omega

theorem le_foldr_max (l : List Nat) (x : Nat) (h : x ∈ l) :
    x ≤ l.foldr max 0 := by
  induction l with
  | nil => simp at h
  | cons y ys ih =>
    simp only [List.foldr_cons]
    rcases List.mem_cons.mp h with h | h
    · omega
    · have := ih h
      omega

/-- C1, main content: on a duplicate-free table of positive IDs the
allocator returns exactly the smallest positive ID not yet present —
the first gap when one exists, `max + 1` otherwise. -/
theorem get_next_file_id_least_free (ids : List Nat)
    (hnd : ids.Nodup) (hpos : ∀ x ∈ ids, 1 ≤ x) :
    1 ≤ get_next_file_id true ids ∧
    get_next_file_id true ids ∉ ids ∧
    (∀ m, 1 ≤ m → m < get_next_file_id true ids → m ∈ ids) := by
  have hperm : List.Perm (List.insertionSort (· ≤ ·) ids) ids :=
    List.perm_insertionSort (· ≤ ·) ids
  have hsorted : (List.insertionSort (· ≤ ·) ids).Sorted (· ≤ ·) :=
    List.sorted_insertionSort (· ≤ ·) ids
  have hnd' : (List.insertionSort (· ≤ ·) ids).Nodup := hperm.nodup_iff.mpr hnd
  have hlt : (List.insertionSort (· ≤ ·) ids).Sorted (· < ·) :=
    List.Sorted.lt_of_le hsorted hnd'
  have hpos' : ∀ x ∈ List.insertionSort (· ≤ ·) ids, 1 ≤ x :=
    fun x hx => hpos x (hperm.mem_iff.mp hx)
  have hmem : ∀ x, x ∈ List.insertionSort (· ≤ ·) ids ↔ x ∈ ids :=
    fun x => hperm.mem_iff
  cases hfg : firstGap (List.insertionSort (· ≤ ·) ids) 1 with
  | some g =>
    have hval : get_next_file_id true ids = g := by
      simp [get_next_file_id, hfg]
    rw [hval]
    obtain ⟨h1, h2, h3⟩ := firstGap_some_spec _ 1 g hlt hpos' hfg
    refine ⟨h1, fun hg => h2 ((hmem g).mpr hg), fun m hm1 hm2 => (hmem m).mp (h3 m hm1 hm2)⟩
  | none =>
    have hval : get_next_file_id true ids = ids.foldr max 0 + 1 := by
      simp [get_next_file_id, hfg]
    rw [hval]
    have hrange := firstGap_none_spec _ 1 hfg
    have hlen : (List.insertionSort (· ≤ ·) ids).length = ids.length := hperm.length_eq
    have hmem' : ∀ x, x ∈ ids ↔ (1 ≤ x ∧ x < 1 + ids.length) := by
      intro x
      rw [← hmem x]
      conv_lhs => rw [hrange]
      rw [hlen, List.mem_range'_1]
    have hM : ids.foldr max 0 = ids.length := by
      rcases Nat.eq_zero_or_pos ids.length with h0 | h0
      · have : ids = [] := List.eq_nil_of_length_eq_zero h0
        simp [this]
      · have hle : ids.foldr max 0 ≤ ids.length :=
          foldr_max_le ids ids.length (fun x hx => by have := (hmem' x).mp hx; omega)
        have hge : ids.length ≤ ids.foldr max 0 :=
          le_foldr_max ids ids.length ((hmem' ids.length).mpr ⟨h0, by omega⟩)
        omega
    rw [hM]
    refine ⟨by omega, ?_, ?_⟩
    · intro hmem2
      have := (hmem' (ids.length + 1)).mp hmem2
      omega
    · intro m hm1 hm2
      exact (hmem' m).mpr ⟨hm1, by omega⟩

/-! ## JSON values

`raw_storage` / `raw_gemini` / `raw_meta` are `jsonb` columns and the Gemini
response is parsed with `json.loads`; JSON values are modelled by an explicit
inductive type (numbers restricted to integers — every number the claims
touch, category codes and pixel sizes, is integral). -/

inductive Json where
  | null : Json
  | bool (b : Bool) : Json
  | num (n : Int) : Json
  | str (s : String) : Json
  | arr (elems : List Json) : Json
  | obj (fields : List (String × Json)) : Json
deriving Repr

/-- Field lookup on a JSON object (`d[k]` when present). -/
def jLookup (j : Json) (key : String) : Option Json :=
  match j with
  | .obj fields => fields.lookup key
  | _ => none

/-- Python `d.get(key, default)`. -/
def jGetD (j : Json) (key : String) (d : Json) : Json :=
  (jLookup j key).getD d

/-! ## RecordStore: table model, insert-or-ignore, duplicate check

One row of `rapa25.raw_image` (lib/db_uploader.py).  `id` is the
database-generated record id (`RETURNING id`). -/

structure RawImageRow where
  id : Nat
  s3_key : String
  file_hash : String
  status : String
  raw_storage : Json
  raw_gemini : Json
  raw_meta : Json

structure DbState where
  rows : List RawImageRow
  nextId : Nat

/-- `raw_storage->'original'->>'file_path'`: the text value of the file path
inside the `raw_storage` payload, `none` when absent (SQL NULL). -/
def storagePath (raw_storage : Json) : Option String :=
  match jLookup (jGetD raw_storage "original" .null) "file_path" with
  | some (.str s) => some s
  | _ => none

/-- Does `row` conflict with an insert carrying path `p` and hash `h`?
This is the uniqueness constraint
`ON CONFLICT ((raw_storage->'original'->>'file_path'), file_hash)`;
per SQL semantics a NULL path never conflicts. -/
def conflictsWith (row : RawImageRow) (p : Option String) (h : String) : Bool :=
  match storagePath row.raw_storage, p with
  | some q, some p' => q == p' && row.file_hash == h
  | _, _ => false

/-- `DatabaseUploader.upload_image_result` (lib/db_uploader.py:215-292).
`dbOk = false` models any exception raised while executing the insert
(`IntegrityError` or infrastructure failure): both `except` branches return
`None` and the transaction leaves the table unchanged.  With a healthy
database, the `ON CONFLICT … DO NOTHING` branch makes `fetchone()` return
no row, and `None` is returned; otherwise the new row is inserted and its
id returned. -/
def upload_image_result (dbOk : Bool) (db : DbState)
    (s3_key : String) (file_hash : String)
    (raw_storage raw_gemini raw_meta : Json) (status : String) :
    Option String × DbState :=
  if dbOk then
    let p := storagePath raw_storage
    if db.rows.any (fun r => conflictsWith r p file_hash) then
      (none, db)
    else
      let row : RawImageRow :=
        ⟨db.nextId, s3_key, file_hash, status, raw_storage, raw_gemini, raw_meta⟩
      (some (toString db.nextId), ⟨db.rows ++ [row], db.nextId + 1⟩)
  else
    (none, db)

/-- `DatabaseUploader.check_duplicate_by_path_and_hash`
(lib/db_uploader.py:316-346): `SELECT … WHERE path = :path AND file_hash =
:hash LIMIT 1`; a row whose stored path is NULL matches nothing. -/
def check_duplicate_by_path_and_hash (db : DbState)
    (file_path file_hash : String) : Option RawImageRow :=
  db.rows.find? (fun r =>
    (match storagePath r.raw_storage with
     | some q => q == file_path
     | none => false) && r.file_hash == file_hash)

theorem conflictsWith_self (row : RawImageRow) (p : String)
    (hp : storagePath row.raw_storage = some p) :
    conflictsWith row (some p) row.file_hash = true := by
  simp [conflictsWith, hp]

/-- The row predicate used by `check_duplicate_by_path_and_hash`, as a
proposition. -/
theorem check_dup_pred_iff (r : RawImageRow) (p h : String) :
    ((match storagePath r.raw_storage with
      | some q => q == p
      | none => false) && r.file_hash == h) = true ↔
    (storagePath r.raw_storage = some p ∧ r.file_hash = h) := by
  cases hq : storagePath r.raw_storage with
  | none => simp
  | some q =>
    simp only [Bool.and_eq_true, beq_iff_eq]
    constructor
    · rintro ⟨rfl, rfl⟩; exact ⟨rfl, rfl⟩
    · rintro ⟨hq2, rfl⟩
      injection hq2 with hq2
      exact ⟨hq2, rfl⟩

/-- C1: `get_next_file_id` scans the existing IDs in ascending order and
returns the first expected ordinal whose ID differs (the gap), otherwise
`max + 1`; on an empty table it returns 1, and on query failure it falls
back to 1.  Formalised as: on any duplicate-free table of positive IDs the
result is the least positive ID not present (which is the first gap when
one exists and `max+1` otherwise), together with the spec's concrete
examples and the failure fallback. -/
theorem nextSequentialId_gap_reuse :
    (∀ ids : List Nat, ids.Nodup → (∀ x ∈ ids, 1 ≤ x) →
      1 ≤ get_next_file_id true ids ∧
      get_next_file_id true ids ∉ ids ∧
      (∀ m, 1 ≤ m → m < get_next_file_id true ids → m ∈ ids)) ∧
    get_next_file_id true [1, 2, 4, 5] = 3 ∧
    get_next_file_id true [1, 2, 3] = 4 ∧
    get_next_file_id true [] = 1 ∧
    (∀ ids : List Nat, get_next_file_id false ids = 1) :=
  ⟨get_next_file_id_least_free, by decide, by decide, by decide, fun _ => rfl⟩

/-- Witness for C1: the allocator run on the table `{1, 2, 4, 5}`. -/
theorem nextSequentialId_gap_reuse_witness :
    1 ≤ get_next_file_id true [1, 2, 4, 5] ∧
    get_next_file_id true [1, 2, 4, 5] ∉ [1, 2, 4, 5] ∧
    (∀ m, 1 ≤ m → m < get_next_file_id true [1, 2, 4, 5] → m ∈ [1, 2, 4, 5]) :=
  nextSequentialId_gap_reuse.1 [1, 2, 4, 5] (by decide) (by decide)

/-- C2: `upload_image_result` is insert-or-ignore on (path-inside-raw_storage,
file_hash): when no existing row carries the pair, the insert succeeds,
returns the new record id and the table gains exactly one row; presenting
the same (path, hash) pair again — with any other payload — returns `None`
and leaves the table unchanged. -/
theorem insertRecord_insert_or_ignore (db : DbState)
    (s3 h : String) (rs rg rm : Json) (st : String) (p : String)
    (hp : storagePath rs = some p)
    (hno : db.rows.any (fun r => conflictsWith r (some p) h) = false) :
    (upload_image_result true db s3 h rs rg rm st).1 = some (toString db.nextId) ∧
    (upload_image_result true db s3 h rs rg rm st).2.rows.length = db.rows.length + 1 ∧
    (∀ (s3' : String) (rs' rg' rm' : Json) (st' : String),
      storagePath rs' = some p →
      upload_image_result true (upload_image_result true db s3 h rs rg rm st).2
          s3' h rs' rg' rm' st'
        = (none, (upload_image_result true db s3 h rs rg rm st).2)) := by
  have hstep : upload_image_result true db s3 h rs rg rm st
      = (some (toString db.nextId),
         ⟨db.rows ++ [⟨db.nextId, s3, h, st, rs, rg, rm⟩], db.nextId + 1⟩) := by
    simp [upload_image_result, hp, hno]
  refine ⟨by rw [hstep], by rw [hstep]; simp, ?_⟩
  intro s3' rs' rg' rm' st' hp'
  rw [hstep]
  have h1 : conflictsWith (⟨db.nextId, s3, h, st, rs, rg, rm⟩ : RawImageRow)
      (some p) h = true :=
    conflictsWith_self _ p hp
  have hconf : ((db.rows ++ [(⟨db.nextId, s3, h, st, rs, rg, rm⟩ : RawImageRow)]).any
      (fun r => conflictsWith r (some p) h)) = true := by
    rw [List.any_append]
    simp [h1]
  simp [upload_image_result, hp', hconf]

/-- Witness for C2: inserting a record into an empty table, then presenting
the same (path, hash) pair again. -/
theorem insertRecord_insert_or_ignore_witness :
    (upload_image_result true ⟨[], 1⟩ "k1" "H1"
        (.obj [("original", .obj [("file_path", .str "/dir/a.jpg")])])
        .null .null "정상").1 = some (toString (1 : Nat)) ∧
    (upload_image_result true ⟨[], 1⟩ "k1" "H1"
        (.obj [("original", .obj [("file_path", .str "/dir/a.jpg")])])
        .null .null "정상").2.rows.length = 0 + 1 ∧
    (∀ (s3' : String) (rs' rg' rm' : Json) (st' : String),
      storagePath rs' = some "/dir/a.jpg" →
      upload_image_result true
          (upload_image_result true ⟨[], 1⟩ "k1" "H1"
            (.obj [("original", .obj [("file_path", .str "/dir/a.jpg")])])
            .null .null "정상").2
          s3' "H1" rs' rg' rm' st'
        = (none,
           (upload_image_result true ⟨[], 1⟩ "k1" "H1"
             (.obj [("original", .obj [("file_path", .str "/dir/a.jpg")])])
             .null .null "정상").2)) :=
  insertRecord_insert_or_ignore ⟨[], 1⟩ "k1" "H1"
    (.obj [("original", .obj [("file_path", .str "/dir/a.jpg")])])
    .null .null "정상" "/dir/a.jpg" rfl rfl

/-- A one-row table used for the C3 examples: hash `"H1"` stored at path
`"/dir/a.jpg"`. -/
def dbPathHashExample : DbState :=
  ⟨[⟨1, "k1", "H1", "정상",
     .obj [("original", .obj [("file_path", .str "/dir/a.jpg")])],
     .null, .null⟩], 2⟩

/-- C3: `check_duplicate_by_path_and_hash` reports a duplicate exactly when
some row matches on BOTH the file path and the content hash; in particular
the same hash stored at a different path is not a duplicate, while the same
(path, hash) pair presented again is. -/
theorem duplicate_requires_path_and_hash :
    (∀ (db : DbState) (p h : String),
      (check_duplicate_by_path_and_hash db p h).isSome = true ↔
        ∃ r ∈ db.rows, storagePath r.raw_storage = some p ∧ r.file_hash = h) ∧
    check_duplicate_by_path_and_hash dbPathHashExample "/dir/other.jpg" "H1" = none ∧
    (check_duplicate_by_path_and_hash dbPathHashExample "/dir/a.jpg" "H1").isSome = true := by
  refine ⟨?_, rfl, by decide⟩
  intro db p h
  rw [check_duplicate_by_path_and_hash, List.find?_isSome]
  constructor
  · rintro ⟨r, hr, hpred⟩
    exact ⟨r, hr, (check_dup_pred_iff r p h).mp hpred⟩
  · rintro ⟨r, hr, hmatch⟩
    exact ⟨r, hr, (check_dup_pred_iff r p h).mpr hmatch⟩

/-- C10: `upload_image_result` never raises; any exception during the
insert (modelled by `dbOk = false`) is converted to a `None` return with
the table unchanged — exactly the shape the conflict no-op also produces,
so `None` does not distinguish a duplicate from a failed insert. -/
theorem upload_never_raises (db : DbState) (s3 h : String)
    (rs rg rm : Json) (st : String) :
    upload_image_result false db s3 h rs rg rm st = (none, db) ∧
    (db.rows.any (fun r => conflictsWith r (storagePath rs) h) = true →
      upload_image_result true db s3 h rs rg rm st = (none, db)) := by
  refine ⟨rfl, fun hconf => ?_⟩
  simp [upload_image_result, hconf]

/-- Witness for C10: a failing database and, separately, a conflicting
duplicate both yield `None` with the table unchanged. -/
theorem upload_never_raises_witness :
    upload_image_result false dbPathHashExample "k2" "H1"
        (.obj [("original", .obj [("file_path", .str "/dir/a.jpg")])])
        .null .null "정상" = (none, dbPathHashExample) ∧
    (dbPathHashExample.rows.any (fun r =>
        conflictsWith r
          (storagePath (.obj [("original", .obj [("file_path", .str "/dir/a.jpg")])]))
          "H1") = true →
      upload_image_result true dbPathHashExample "k2" "H1"
          (.obj [("original", .obj [("file_path", .str "/dir/a.jpg")])])
          .null .null "정상" = (none, dbPathHashExample)) ∧
    upload_image_result true dbPathHashExample "k2" "H1"
        (.obj [("original", .obj [("file_path", .str "/dir/a.jpg")])])
        .null .null "정상" = (none, dbPathHashExample) :=
  ⟨(upload_never_raises dbPathHashExample "k2" "H1"
      (.obj [("original", .obj [("file_path", .str "/dir/a.jpg")])])
      .null .null "정상").1,
   (upload_never_raises dbPathHashExample "k2" "H1"
      (.obj [("original", .obj [("file_path", .str "/dir/a.jpg")])])
      .null .null "정상").2,
   (upload_never_raises dbPathHashExample "k2" "H1"
      (.obj [("original", .obj [("file_path", .str "/dir/a.jpg")])])
      .null .null "정상").2 (by decide)⟩

/-! ## A JSON parser

`_parse_response` calls `json.loads`.  The parser below models it on the
JSON subset the pipeline exchanges: objects, arrays, escape-free strings,
integers, booleans and `null`, with whitespace.  It is fuel-based so that
every run is a terminating computation the kernel can evaluate. -/

/-- Drop leading JSON whitespace. -/
def skipWs : List Char → List Char
  | [] => []
  | c :: cs =>
    if c == ' ' || c == '\n' || c == '\t' || c == '\r' then skipWs cs
    else c :: cs

/-- Scan a string body up to the closing quote (no escape sequences). -/
def parseStrAux : List Char → List Char → Option (String × List Char)
  | [], _ => none
  | c :: cs, acc =>
    if c == quoteChar then some (String.mk acc, cs)
    else parseStrAux cs (acc ++ [c])

/-- Accumulate decimal digits; returns (value, digit count, rest). -/
def takeDigitsAux : List Char → Nat → Nat → (Nat × Nat × List Char)
  | [], acc, n => (acc, n, [])
  | c :: cs, acc, n =>
    if '0' ≤ c && c ≤ '9' then takeDigitsAux cs (acc * 10 + (c.toNat - 48)) (n + 1)
    else (acc, n, c :: cs)

/-- Parse an integer literal (optional leading minus). -/
def parseNum (cs : List Char) : Option (Json × List Char) :=
  match cs with
  | [] => none
  | c :: rest =>
    if c == '-' then
      match takeDigitsAux rest 0 0 with
      | (v, n, rest') => if n == 0 then none else some (.num (-(v : Int)), rest')
    else
      match takeDigitsAux (c :: rest) 0 0 with
      | (v, n, rest') => if n == 0 then none else some (.num (v : Int), rest')

mutual

def parseVal : Nat → List Char → Option (Json × List Char)
  | 0, _ => none
  | fuel + 1, cs =>
    match skipWs cs with
    | [] => none
    | c :: rest =>
      if c == quoteChar then
        match parseStrAux rest [] with
        | some (s, rest') => some (.str s, rest')
        | none => none
      else if c == lbraceChar then
        match skipWs rest with
        | d :: rest2 =>
          if d == rbraceChar then some (.obj [], rest2)
          else parseFields fuel (d :: rest2) []
        | [] => none
      else if c == '[' then
        match skipWs rest with
        | d :: rest2 =>
          if d == ']' then some (.arr [], rest2)
          else parseItems fuel (d :: rest2) []
        | [] => none
      else if charsStartWith (c :: rest) "true".toList then
        some (.bool true, rest.drop 3)
      else if charsStartWith (c :: rest) "false".toList then
        some (.bool false, rest.drop 4)
      else if charsStartWith (c :: rest) "null".toList then
        some (.null, rest.drop 3)
      else parseNum (c :: rest)

def parseFields : Nat → List Char → List (String × Json) → Option (Json × List Char)
  | 0, _, _ => none
  | fuel + 1, cs, acc =>
    match skipWs cs with
    | [] => none
    | c :: rest =>
      if c == quoteChar then
        match parseStrAux rest [] with
        | some (key, rest2) =>
          match skipWs rest2 with
          | [] => none
          | d :: rest3 =>
            if d == ':' then
              match parseVal fuel rest3 with
              | some (v, rest4) =>
                match skipWs rest4 with
                | [] => none
                | e :: rest5 =>
                  if e == ',' then parseFields fuel rest5 (acc ++ [(key, v)])
                  else if e == rbraceChar then some (.obj (acc ++ [(key, v)]), rest5)
                  else none
              | none => none
            else none
        | none => none
      else none

def parseItems : Nat → List Char → List Json → Option (Json × List Char)
  | 0, _, _ => none
  | fuel + 1, cs, acc =>
    match parseVal fuel cs with
    | some (v, rest) =>
      match skipWs rest with
      | [] => none
      | e :: rest2 =>
        if e == ',' then parseItems fuel rest2 (acc ++ [v])
        else if e == ']' then some (.arr (acc ++ [v]), rest2)
        else none
    | none => none

end

/-- `json.loads`: parse a whole string as one JSON value (trailing
whitespace allowed, anything else rejected). -/
def jsonParse (s : String) : Option Json :=
  match parseVal (s.length + 1) s.toList with
  | some (j, rest) => if (skipWs rest).isEmpty then some j else none
  | none => none

/-! ## AnnotationClient: response parsing

`GeminiImageAnalyzer._parse_response` (lib/gemini_analyzer.py:308-359). -/

/-- Python `cs.rfind(c)`: index of the last occurrence. -/
def rfindIdx (cs : List Char) (c : Char) : Option Nat :=
  match cs.reverse.findIdx? (· == c) with
  | some k => some (cs.length - 1 - k)
  | none => none

/-- The analyzer's parsed result: the dict
`{"meta": …, "category_info": …, "annotation_info": …}` built at
lib/gemini_analyzer.py:344-348. -/
structure AnalysisResult where
  meta : Json
  category_info : Json
  annotation_info : Json
deriving Repr

/-- The two failure modes of `_parse_response`:
`noJson` is `ValueError("JSON을 찾을 수 없습니다.")` (no object boundaries);
`decodeFail` is `ValueError("API 응답을 파싱할 수 없습니다")` raised from the
`json.JSONDecodeError` handler, which first prints the raw response text —
the raw text is carried in the error. -/
inductive ParseFailure where
  | noJson (msg : String)
  | decodeFail (msg : String) (raw : String)
deriving Repr

/-- Replace the value stored at `key` (Python `d[key] = v`). -/
def setField (fields : List (String × Json)) (key : String) (v : Json) :
    List (String × Json) :=
  match fields with
  | [] => [(key, v)]
  | (k, w) :: rest =>
    if k == key then (k, v) :: rest else (k, w) :: setField rest key v

/-- `round(x, 2)` on the integers this model carries is the identity
(Python's `round` returns an `int` unchanged when `ndigits` is given and the
argument is integral). -/
def pyRound2 (v : Json) : Json := v

/-- The `start_time` post-processing step
(lib/gemini_analyzer.py:351-352): if the `meta` dict has a `start_time`
entry, round it to 2 decimal places. -/
def roundStartTime (meta : Json) : Json :=
  match meta with
  | .obj fields =>
    match fields.lookup "start_time" with
    | some v => .obj (setField fields "start_time" (pyRound2 v))
    | none => .obj fields
  | m => m

/-- Code-fence stripping (lib/gemini_analyzer.py:325):
`response_text.replace("```json", "").replace("```", "")`. -/
def cleanedText (response_text : String) : String :=
  strReplace (strReplace response_text "```json" "") "```" ""

/-- `GeminiImageAnalyzer._parse_response`: strip code-fence markers, cut
from the first `{` to the last `}`, `json.loads` the slice, then assemble
`meta` / `category_info` / `annotation_info` with `dict.get(…, {})`
defaults.  No further validation is performed on the three sections. -/
def cleanedChars (response_text : String) : List Char :=
  (cleanedText response_text).toList

def parse_response (response_text : String) : Except ParseFailure AnalysisResult :=
  let cs := cleanedChars response_text
  match cs.findIdx? (· == lbraceChar), rfindIdx cs rbraceChar with
  | some s, some e =>
    let json_string := String.mk ((cs.drop s).take (e + 1 - s))
    match jsonParse json_string with
    | none => .error (.decodeFail "API 응답을 파싱할 수 없습니다" response_text)
    | some j =>
      let category_info := jGetD j "category_info" (.obj [])
      .ok ⟨roundStartTime (jGetD j "meta" (.obj [])),
           category_info,
           jGetD j "annotation_info" (.obj [])⟩
  | _, _ => .error (.noJson "JSON을 찾을 수 없습니다.")

/-! ## AnnotationClient: the model-call retry loop

`GeminiImageAnalyzer.analyze_image` (lib/gemini_analyzer.py:149-218).  The
remote call is a parameter `client : Nat → CallResult`, giving the outcome
of each numbered attempt; `analyze_image` also returns how many times the
client was called. -/

/-- `max_retries = 3` (lib/gemini_analyzer.py:149). -/
def max_retries : Nat := 3

/-- `retry_delay = 5` seconds (lib/gemini_analyzer.py:150). -/
def retry_delay : Nat := 5

/-- `api_timeout = 120` seconds (lib/gemini_analyzer.py:151). -/
def api_timeout : Nat := 120

/-- The retryable-error test (lib/gemini_analyzer.py:199-201):
`"500" in msg or "internal error" in msg.lower() or "Internal error" in msg`. -/
def is_retryable_error (error_msg : String) : Bool :=
  strContains error_msg "500" ||
  strContains (strLower error_msg) "internal error" ||
  strContains error_msg "Internal error"

structure Candidate where
  finish_reason : Nat
deriving Repr

/-- A `generate_content` response: its candidate list and aggregated text. -/
structure GenResponse where
  candidates : List Candidate
  text : String
deriving Repr

/-- Outcome of one `generate_content` attempt: a response, an
`asyncio.TimeoutError` (the 120 s `wait_for` expired), or an exception with
message `msg`. -/
inductive CallResult where
  | success (resp : GenResponse)
  | timeout
  | failure (msg : String)

/-- Exceptions `analyze_image` can raise (before the outer wrapper re-wraps
the message). -/
inductive AnalyzeFailure where
  | timeoutErr (msg : String)
  | apiError (msg : String)
  | emptyCandidates (msg : String)
  | badFinishReason (msg : String)
  | parseFail (e : ParseFailure)
deriving Repr

/-- The message of the timeout error raised after the attempts run out. -/
def timeoutMsg : String :=
  "API 요청 타임아웃 (" ++ toString api_timeout ++ "초 초과)"

/-- The retry loop (lib/gemini_analyzer.py:155-211).  `left` is the number
of attempts still allowed including the current one; `attempt` is the
0-based attempt index, so `attempt < max_retries - 1` is `0 < left - 1`.
Returns the loop's outcome and the number of client calls made.  The
`left = 0` case is the `response is None` fallback after the loop
(lib/gemini_analyzer.py:214-218), unreachable when starting from
`max_retries = 3`. -/
def retryAux (client : Nat → CallResult) : Nat → Nat →
    Except AnalyzeFailure GenResponse × Nat
  | 0, _ => (.error (.apiError "Gemini API 요청 실패: 응답을 받지 못했습니다"), 0)
  | left + 1, attempt =>
    match client attempt with
    | .success r => (.ok r, 1)
    | .timeout =>
      if 0 < left then
        match retryAux client left (attempt + 1) with
        | (res, n) => (res, n + 1)
      else (.error (.timeoutErr timeoutMsg), 1)
    | .failure msg =>
      if is_retryable_error msg ∧ 0 < left then
        match retryAux client left (attempt + 1) with
        | (res, n) => (res, n + 1)
      else (.error (.apiError msg), 1)

/-- `finish_reason_map.get(r, f"UNKNOWN ({r})")` (lib/gemini_analyzer.py:249-258). -/
def finishReasonText (n : Nat) : String :=
  match n with
  | 1 => "STOP (정상 완료)"
  | 2 => "MAX_TOKENS (최대 토큰 도달)"
  | 3 => "SAFETY (안전 필터 발동)"
  | 4 => "RECITATION (인용 감지)"
  | 5 => "OTHER (기타 이유)"
  | 8 => "BLOCKLIST (차단 목록)"
  | _ => "UNKNOWN (" ++ toString n ++ ")"

/-- The error message raised on an empty candidate list
(lib/gemini_analyzer.py:222). -/
def emptyCandidatesMsg : String :=
  "Gemini API가 빈 응답을 반환했습니다 (안전 필터 또는 콘텐츠 정책 위반 가능성)"

/-- The post-loop response validation (lib/gemini_analyzer.py:220-269):
zero candidates is a terminal failure; a first candidate whose
`finish_reason` is not 1 (STOP) is a terminal failure with the reason
embedded in the message. -/
def checkCandidates (r : GenResponse) : Except AnalyzeFailure Unit :=
  match r.candidates with
  | [] => .error (.emptyCandidates emptyCandidatesMsg)
  | c :: _ =>
    if c.finish_reason ≠ 1 then
      .error (.badFinishReason
        ("Gemini API 응답 실패: finish_reason=" ++ toString c.finish_reason ++
         " (" ++ finishReasonText c.finish_reason ++ ")"))
    else .ok ()

/-- `GeminiImageAnalyzer.analyze_image`: run the retry loop, validate the
candidates, parse the response text.  Also returns the number of client
calls made. -/
def analyze_image (client : Nat → CallResult) :
    Except AnalyzeFailure AnalysisResult × Nat :=
  match retryAux client max_retries 0 with
  | (.error e, n) => (.error e, n)
  | (.ok r, n) =>
    match checkCandidates r with
    | .error e => (.error e, n)
    | .ok _ =>
      match parse_response r.text with
      | .ok res => (.ok res, n)
      | .error e => (.error (.parseFail e), n)

/-! Step lemmas for the retry loop. -/

theorem retryAux_success (client : Nat → CallResult) (left attempt : Nat)
    (r : GenResponse) (hc : client attempt = .success r) :
    retryAux client (left + 1) attempt = (.ok r, 1) := by
  simp [retryAux, hc]

theorem retryAux_failure_step (client : Nat → CallResult) (left attempt : Nat)
    (m : String) (hc : client attempt = .failure m)
    (hr : is_retryable_error m = true) (hl : 0 < left)
    (res : Except AnalyzeFailure GenResponse) (n : Nat)
    (hrec : retryAux client left (attempt + 1) = (res, n)) :
    retryAux client (left + 1) attempt = (res, n + 1) := by
  simp [retryAux, hc, hr, hl, hrec]

theorem retryAux_one_failure (client : Nat → CallResult) (attempt : Nat)
    (m : String) (hc : client attempt = .failure m) :
    retryAux client 1 attempt = (.error (.apiError m), 1) := by
  show retryAux client (0 + 1) attempt = _
  simp [retryAux, hc]

theorem retryAux_failure_noretry (client : Nat → CallResult) (left attempt : Nat)
    (m : String) (hc : client attempt = .failure m)
    (hr : is_retryable_error m = false) :
    retryAux client (left + 1) attempt = (.error (.apiError m), 1) := by
  simp [retryAux, hc, hr]

theorem retryAux_timeout_step (client : Nat → CallResult) (left attempt : Nat)
    (hc : client attempt = .timeout) (hl : 0 < left)
    (res : Except AnalyzeFailure GenResponse) (n : Nat)
    (hrec : retryAux client left (attempt + 1) = (res, n)) :
    retryAux client (left + 1) attempt = (res, n + 1) := by
  simp [retryAux, hc, hl, hrec]

theorem retryAux_one_timeout (client : Nat → CallResult) (attempt : Nat)
    (hc : client attempt = .timeout) :
    retryAux client 1 attempt = (.error (.timeoutErr timeoutMsg), 1) := by
  show retryAux client (0 + 1) attempt = _
  simp [retryAux, hc]

/-- C4: `analyze_image` makes at most 3 attempts with a 120 s per-attempt
timeout and a 5 s fixed delay between retries; a timeout or a
retryable-signature error is retried, any other exception propagates
immediately after a single call, and once the attempts are exhausted the
last error is raised — a client that always fails retryably is called
exactly 3 times and the error of the 3rd call is raised. -/
theorem analyze_retry_policy :
    max_retries = 3 ∧ api_timeout = 120 ∧ retry_delay = 5 ∧
    (∀ client : Nat → CallResult,
      (∀ n, ∃ m, client n = .failure m ∧ is_retryable_error m = true) →
      (analyze_image client).2 = 3 ∧
      ∃ m, client 2 = .failure m ∧
        (analyze_image client).1 = .error (.apiError m)) ∧
    (∀ (client : Nat → CallResult) (m : String),
      client 0 = .failure m → is_retryable_error m = false →
      analyze_image client = (.error (.apiError m), 1)) ∧
    (∀ client : Nat → CallResult,
      (∀ n, client n = .timeout) →
      analyze_image client = (.error (.timeoutErr timeoutMsg), 3)) := by
  refine ⟨rfl, rfl, rfl, ?_, ?_, ?_⟩
  · intro client H
    obtain ⟨m0, hc0, hr0⟩ := H 0
    obtain ⟨m1, hc1, hr1⟩ := H 1
    obtain ⟨m2, hc2, hr2⟩ := H 2
    have s2 : retryAux client 1 2 = (.error (.apiError m2), 1) :=
      retryAux_one_failure client 2 m2 hc2
    have s1 : retryAux client 2 1 = (.error (.apiError m2), 2) :=
      retryAux_failure_step client 1 1 m1 hc1 hr1 (by omega) _ _ s2
    have s0 : retryAux client 3 0 = (.error (.apiError m2), 3) :=
      retryAux_failure_step client 2 0 m0 hc0 hr0 (by omega) _ _ s1
    refine ⟨?_, m2, hc2, ?_⟩ <;> simp [analyze_image, max_retries, s0]
  · intro client m hc hr
    have s0 : retryAux client 3 0 = (.error (.apiError m), 1) :=
      retryAux_failure_noretry client 2 0 m hc hr
    simp [analyze_image, max_retries, s0]
  · intro client H
    have s2 : retryAux client 1 2 = (.error (.timeoutErr timeoutMsg), 1) :=
      retryAux_one_timeout client 2 (H 2)
    have s1 : retryAux client 2 1 = (.error (.timeoutErr timeoutMsg), 2) :=
      retryAux_timeout_step client 1 1 (H 1) (by omega) _ _ s2
    have s0 : retryAux client 3 0 = (.error (.timeoutErr timeoutMsg), 3) :=
      retryAux_timeout_step client 2 0 (H 0) (by omega) _ _ s1
    simp [analyze_image, max_retries, s0]

/-- Witness for C4: a client that always raises an HTTP 500 error is called
exactly 3 times and the last error is raised. -/
theorem analyze_retry_policy_witness :
    (analyze_image (fun _ => .failure "HTTP 500 error")).2 = 3 ∧
    ∃ m, (fun _ => CallResult.failure "HTTP 500 error") 2 = CallResult.failure m ∧
      (analyze_image (fun _ => .failure "HTTP 500 error")).1 = .error (.apiError m) :=
  analyze_retry_policy.2.2.2.1 (fun _ => .failure "HTTP 500 error")
    (fun _ => ⟨"HTTP 500 error", rfl, by decide⟩)

/-- C5: when the first call returns a response, the model endpoint is called
exactly once; if that response has zero candidates the analyzer fails
terminally with the descriptive safety-block message, and if the first
candidate's finish reason is not the normal stop (1) it fails terminally
with the finish reason embedded in the error message — in neither case is
the call retried. -/
theorem content_block_not_retried (client : Nat → CallResult)
    (r : GenResponse) (h : client 0 = .success r) :
    (analyze_image client).2 = 1 ∧
    (r.candidates = [] →
      (analyze_image client).1 = .error (.emptyCandidates emptyCandidatesMsg)) ∧
    (∀ c cs, r.candidates = c :: cs → c.finish_reason ≠ 1 →
      (analyze_image client).1 = .error (.badFinishReason
        ("Gemini API 응답 실패: finish_reason=" ++ toString c.finish_reason ++
         " (" ++ finishReasonText c.finish_reason ++ ")"))) := by
  have s0 : retryAux client 3 0 = (.ok r, 1) :=
    retryAux_success client 2 0 r h
  refine ⟨?_, ?_, ?_⟩
  · simp only [analyze_image, max_retries, s0]
    cases hcc : checkCandidates r with
    | error e => simp
    | ok u => cases hpr : parse_response r.text with
      | ok res => simp
      | error e => simp
  · intro hempty
    have hcc : checkCandidates r = .error (.emptyCandidates emptyCandidatesMsg) := by
      simp [checkCandidates, hempty]
    simp [analyze_image, max_retries, s0, hcc]
  · intro c cs hcand hfr
    have hcc : checkCandidates r = .error (.badFinishReason
        ("Gemini API 응답 실패: finish_reason=" ++ toString c.finish_reason ++
         " (" ++ finishReasonText c.finish_reason ++ ")")) := by
      simp [checkCandidates, hcand, hfr]
    simp [analyze_image, max_retries, s0, hcc]

/-- Witness for C5: a client whose response has zero candidates is called
once and the analyzer raises the safety-block error. -/
theorem content_block_not_retried_witness :
    (analyze_image (fun _ => .success ⟨[], "x"⟩)).2 = 1 ∧
    (analyze_image (fun _ => .success ⟨[], "x"⟩)).1
      = .error (.emptyCandidates emptyCandidatesMsg) :=
  ⟨(content_block_not_retried (fun _ => .success ⟨[], "x"⟩) ⟨[], "x"⟩ rfl).1,
   (content_block_not_retried (fun _ => .success ⟨[], "x"⟩) ⟨[], "x"⟩ rfl).2.1 rfl⟩

/-! ## `_parse_response` branch lemmas (shared by the C6 and C7 theorems) -/

theorem parse_response_eq_noJson (text : String)
    (h : (cleanedChars text).findIdx? (· == lbraceChar) = none ∨
         rfindIdx (cleanedChars text) rbraceChar = none) :
    parse_response text = .error (.noJson "JSON을 찾을 수 없습니다.") := by
  rcases h with h | h
  · simp [parse_response, h]
  · cases hfi : (cleanedChars text).findIdx? (· == lbraceChar) with
    | none => simp [parse_response, hfi]
    | some s => simp [parse_response, hfi, h]

theorem parse_response_eq_decodeFail (text : String) (s e : Nat)
    (h1 : (cleanedChars text).findIdx? (· == lbraceChar) = some s)
    (h2 : rfindIdx (cleanedChars text) rbraceChar = some e)
    (h3 : jsonParse
        (String.mk (((cleanedChars text).drop s).take (e + 1 - s))) = none) :
    parse_response text = .error (.decodeFail "API 응답을 파싱할 수 없습니다" text) := by
  simp [parse_response, h1, h2, h3]

theorem parse_response_eq_ok (text : String) (s e : Nat) (j : Json)
    (h1 : (cleanedChars text).findIdx? (· == lbraceChar) = some s)
    (h2 : rfindIdx (cleanedChars text) rbraceChar = some e)
    (h3 : jsonParse
        (String.mk (((cleanedChars text).drop s).take (e + 1 - s))) = some j) :
    parse_response text = .ok ⟨roundStartTime (jGetD j "meta" (.obj [])),
                               jGetD j "category_info" (.obj []),
                               jGetD j "annotation_info" (.obj [])⟩ := by
  simp [parse_response, h1, h2, h3]

/-- C6 counterexample: the response text `"{}"` parses to an object with
none of the `meta` / `category_info` / `annotation_info` keys, yet
`_parse_response` succeeds (defaulting each section to `{}`) instead of
failing — no presence validation is performed. -/
theorem parse_response_missing_sections_not_rejected :
    jsonParse "\x7b\x7d" = some (.obj []) ∧
    jLookup (.obj []) "meta" = none ∧
    jLookup (.obj []) "category_info" = none ∧
    jLookup (.obj []) "annotation_info" = none ∧
    parse_response "\x7b\x7d" = .ok ⟨.obj [], .obj [], .obj []⟩ :=
  ⟨rfl, rfl, rfl, rfl, rfl⟩

/-- A fenced model response used as a concrete example for C6. -/
def fencedExample : String :=
  "Result: ```json\n\x7b\"meta\": \x7b\"width\": 1\x7d, " ++
  "\"category_info\": \x7b\"LocationCategory\": 2\x7d, " ++
  "\"annotation_info\": \x7b\"SceneExp\": \"s\"\x7d\x7d\n``` end"

/-- C6 (amended): `_parse_response` strips code-fence markers, extracts the
substring from the first `{` to the last `}` and parses it as JSON; it
fails with a parse error when no JSON object boundaries are found, or when
JSON parsing fails (the raw response text preserved for diagnostics), and
otherwise returns a result with exactly the three sections `meta`,
`category_info`, `annotation_info`, each taken from the parsed object with
a missing section defaulting to an empty object — presence of the keys is
not validated. -/
theorem parse_response_extract_and_default :
    (∀ text : String,
      ((cleanedChars text).findIdx? (· == lbraceChar) = none ∨
        rfindIdx (cleanedChars text) rbraceChar = none) →
      parse_response text = .error (.noJson "JSON을 찾을 수 없습니다.")) ∧
    (∀ (text : String) (s e : Nat),
      (cleanedChars text).findIdx? (· == lbraceChar) = some s →
      rfindIdx (cleanedChars text) rbraceChar = some e →
      jsonParse
        (String.mk (((cleanedChars text).drop s).take (e + 1 - s))) = none →
      parse_response text = .error (.decodeFail "API 응답을 파싱할 수 없습니다" text)) ∧
    (∀ (text : String) (s e : Nat) (j : Json),
      (cleanedChars text).findIdx? (· == lbraceChar) = some s →
      rfindIdx (cleanedChars text) rbraceChar = some e →
      jsonParse
        (String.mk (((cleanedChars text).drop s).take (e + 1 - s))) = some j →
      parse_response text = .ok ⟨roundStartTime (jGetD j "meta" (.obj [])),
                                 jGetD j "category_info" (.obj []),
                                 jGetD j "annotation_info" (.obj [])⟩) ∧
    parse_response fencedExample =
      .ok ⟨.obj [("width", .num 1)],
           .obj [("LocationCategory", .num 2)],
           .obj [("SceneExp", .str "s")]⟩ :=
  ⟨parse_response_eq_noJson, parse_response_eq_decodeFail, parse_response_eq_ok, rfl⟩

/-- Witness for C6: the no-boundaries branch on prose without braces, and
the decode-failure branch on `"}{"` (boundaries found but the slice is not
valid JSON; the raw text is preserved in the error). -/
theorem parse_response_extract_and_default_witness :
    parse_response "no json here" = .error (.noJson "JSON을 찾을 수 없습니다.") ∧
    parse_response "\x7d\x7b"
      = .error (.decodeFail "API 응답을 파싱할 수 없습니다" "\x7d\x7b") :=
  ⟨parse_response_extract_and_default.1 "no json here" (Or.inl rfl),
   parse_response_extract_and_default.2.1 "\x7d\x7b" 1 0 rfl rfl rfl⟩

/-! ## The AnnotationResult validity invariant (C7)

Modelled from the spec: the data-model invariant on `AnnotationResult` —
`Explanation` must equal the concatenation, in fixed order, of `SceneExp`,
`ColortoneExp`, `CompositionExp`, `ObjectExp1`, `ObjectExp2`, and
`LocationCategory`, `EraCategory` must lie in `{1, 2, 3, 4}`.  The
repository has no code enforcing this (the prompt merely asks the model to
satisfy it), so the predicates below are written from the spec's words in
order to state the claim. -/

/-- The string stored at `key`, or `""` when absent or not a string. -/
def jStrD (j : Json) (key : String) : String :=
  match jLookup j key with
  | some (.str s) => s
  | _ => ""

/-- Modelled from the spec: the fixed-order concatenation of the five
explanation fields. -/
def explanationConcat (ann : Json) : String :=
  jStrD ann "SceneExp" ++ jStrD ann "ColortoneExp" ++ jStrD ann "CompositionExp" ++
  jStrD ann "ObjectExp1" ++ jStrD ann "ObjectExp2"

/-- Modelled from the spec: `Explanation` equals the concatenation of the
five explanation fields. -/
def annotationConsistent (ann : Json) : Bool :=
  jStrD ann "Explanation" == explanationConcat ann

/-- Modelled from the spec: `LocationCategory ∈ {1,2,3,4}` and
`EraCategory ∈ {1,2,3,4}` as integer fields of `category_info`. -/
def categoryInRange (cat : Json) : Bool :=
  match jLookup cat "LocationCategory", jLookup cat "EraCategory" with
  | some (.num l), some (.num e) => (1 ≤ l && l ≤ 4) && (1 ≤ e && e ≤ 4)
  | _, _ => false

/-- A model response whose categories are out of range and whose
`Explanation` is not the concatenation of the five explanation fields. -/
def invalidResponseText : String :=
  "\x7b\"meta\": \x7b\"width\": 1920\x7d, " ++
  "\"category_info\": \x7b\"LocationCategory\": 99, \"EraCategory\": 7\x7d, " ++
  "\"annotation_info\": \x7b\"SceneExp\": \"a\", \"ColortoneExp\": \"b\", " ++
  "\"CompositionExp\": \"c\", \"ObjectExp1\": \"d\", \"ObjectExp2\": \"e\", " ++
  "\"Explanation\": \"zzz\"\x7d\x7d"

/-- A client returning that response with a normal finish reason. -/
def invalidClient : Nat → CallResult :=
  fun _ => .success ⟨[⟨1⟩], invalidResponseText⟩

/-- C7 counterexample: `analyze_image` returns, as a successful
`AnnotationResult`, category values 99 and 7 (outside `{1,2,3,4}`) and an
`Explanation` that is not the concatenation of the five explanation fields
— the invariant violation is passed through silently, not flagged. -/
theorem analyzer_passes_invalid_result_through :
    analyze_image invalidClient =
      (.ok ⟨.obj [("width", .num 1920)],
            .obj [("LocationCategory", .num 99), ("EraCategory", .num 7)],
            .obj [("SceneExp", .str "a"), ("ColortoneExp", .str "b"),
                  ("CompositionExp", .str "c"), ("ObjectExp1", .str "d"),
                  ("ObjectExp2", .str "e"), ("Explanation", .str "zzz")]⟩, 1) ∧
    categoryInRange
      (.obj [("LocationCategory", .num 99), ("EraCategory", .num 7)]) = false ∧
    annotationConsistent
      (.obj [("SceneExp", .str "a"), ("ColortoneExp", .str "b"),
             ("CompositionExp", .str "c"), ("ObjectExp1", .str "d"),
             ("ObjectExp2", .str "e"), ("Explanation", .str "zzz")]) = false :=
  ⟨rfl, by decide, by decide⟩

/-- C7 (amended): the analyzer performs no validation of the
AnnotationResult invariant: whenever the parsed object's `category_info`
is out of range and its `annotation_info` violates the Explanation
concatenation, `_parse_response` still succeeds and returns those
sections unchanged. -/
theorem parse_response_no_invariant_validation (text : String) (s e : Nat)
    (j : Json)
    (h1 : (cleanedChars text).findIdx? (· == lbraceChar) = some s)
    (h2 : rfindIdx (cleanedChars text) rbraceChar = some e)
    (h3 : jsonParse
        (String.mk (((cleanedChars text).drop s).take (e + 1 - s))) = some j)
    (hcat : categoryInRange (jGetD j "category_info" (.obj [])) = false)
    (hann : annotationConsistent (jGetD j "annotation_info" (.obj [])) = false) :
    parse_response text = .ok ⟨roundStartTime (jGetD j "meta" (.obj [])),
                               jGetD j "category_info" (.obj []),
                               jGetD j "annotation_info" (.obj [])⟩ :=
  parse_response_eq_ok text s e j h1 h2 h3

/-- The JSON object that `invalidResponseText` parses to. -/
def invalidParsedJson : Json :=
  .obj [("meta", .obj [("width", .num 1920)]),
        ("category_info", .obj [("LocationCategory", .num 99), ("EraCategory", .num 7)]),
        ("annotation_info",
         .obj [("SceneExp", .str "a"), ("ColortoneExp", .str "b"),
               ("CompositionExp", .str "c"), ("ObjectExp1", .str "d"),
               ("ObjectExp2", .str "e"), ("Explanation", .str "zzz")])]

/-- Witness for the amended C7: the invalid response is parsed and its
sections returned unchanged. -/
theorem parse_response_no_invariant_validation_witness :
    parse_response invalidResponseText =
      .ok ⟨roundStartTime (jGetD invalidParsedJson "meta" (.obj [])),
           jGetD invalidParsedJson "category_info" (.obj []),
           jGetD invalidParsedJson "annotation_info" (.obj [])⟩ :=
  parse_response_no_invariant_validation invalidResponseText 0 227 invalidParsedJson
    rfl rfl rfl (by decide) (by decide)

/-! ## TransportClient: `FTPClient.download_file`

lib/ftp_client.py:201-275.  The network is a parameter: `reconnectOk k` is
the outcome of the k-th `reconnect()` call and `download k` the outcome of
the k-th `retrbinary` transfer.  The state tracks the `self.connected`
flag and how many reconnects/transfers were attempted. -/

inductive TransferResult where
  | completed
  | failed (msg : String)

structure FtpEnv where
  reconnectOk : Nat → Bool
  download : Nat → TransferResult

structure FtpSt where
  connected : Bool
  rcCalls : Nat
  dlCalls : Nat
deriving Repr, DecidableEq

/-- The connection-class test (lib/ftp_client.py:262):
`any(err in error_msg.lower() for err in ['broken pipe', 'connection',
'timeout', 'reset'])`. -/
def connection_error (msg : String) : Bool :=
  ["broken pipe", "connection", "timeout", "reset"].any
    (fun e => strContains (strLower msg) e)

/-- One pass of the `for attempt in range(max_retries)` loop of
`download_file`; `left` counts the iterations still available including the
current one, so `attempt < max_retries - 1` is `0 < left - 1`.  Each
iteration: reconnect first when disconnected (a failed reconnect consumes
the attempt, `continue`); run the transfer; on success return the local
path; on a connection-class error mark disconnected and (when attempts
remain) reconnect and retry; on any other error return `None` at once. -/
def download_file_aux (env : FtpEnv) (localFilePath : String) :
    Nat → FtpSt → Option String × FtpSt
  | 0, st => (none, st)
  | left + 1, st =>
    match (if st.connected then Sum.inr st
           else
             let ok := env.reconnectOk st.rcCalls
             let st' : FtpSt := ⟨ok, st.rcCalls + 1, st.dlCalls⟩
             if ok then Sum.inr st' else Sum.inl st') with
    | Sum.inl stSkip => download_file_aux env localFilePath left stSkip
    | Sum.inr st1 =>
      match env.download st1.dlCalls with
      | .completed => (some localFilePath, ⟨st1.connected, st1.rcCalls, st1.dlCalls + 1⟩)
      | .failed msg =>
        if connection_error msg then
          if 0 < left then
            let ok := env.reconnectOk st1.rcCalls
            download_file_aux env localFilePath left ⟨ok, st1.rcCalls + 1, st1.dlCalls + 1⟩
          else (none, ⟨false, st1.rcCalls, st1.dlCalls + 1⟩)
        else (none, ⟨st1.connected, st1.rcCalls, st1.dlCalls + 1⟩)

/-- `FTPClient.download_file` with the default `max_retries = 3`, started
from a connected client. -/
def download_file (env : FtpEnv) (localFilePath : String) :
    Option String × FtpSt :=
  download_file_aux env localFilePath 3 ⟨true, 0, 0⟩

/-- C8 counterexample: a transfer that always fails with a connection-class
error exhausts the 3 attempts and `download_file` returns `None` as a
normal value — it does not raise; no `DownloadError` exists anywhere in the
code (`download_file` returns `Optional[str]`, lib/ftp_client.py:270-275). -/
theorem download_exhaustion_returns_none :
    download_file ⟨fun _ => true, fun _ => .failed "connection reset by peer"⟩
        "/tmp/img/a.jpg"
      = (none, ⟨false, 2, 3⟩) ∧
    connection_error "connection reset by peer" = true := by
  constructor
  · rfl
  · decide

/-- C8 (amended): `download_file` makes up to 3 attempts: on a
connection-class error ('broken pipe' / 'connection' / 'timeout' / 'reset'
in the lowered message) it marks itself disconnected and reconnects before
retrying; on any other error it returns `None` immediately after a single
transfer; and after exhausting the retries it returns `None` (failure is
signalled by the `None` return value, not by an exception). -/
theorem download_retry_policy :
    (∀ (env : FtpEnv) (lfp msg : String),
      env.download 0 = .failed msg → connection_error msg = false →
      download_file env lfp = (none, ⟨true, 0, 1⟩)) ∧
    (∀ (env : FtpEnv) (lfp msg : String),
      env.download 0 = .failed msg → connection_error msg = true →
      download_file env lfp
        = download_file_aux env lfp 2 ⟨env.reconnectOk 0, 1, 1⟩) ∧
    (∀ (env : FtpEnv) (lfp : String),
      (∀ n, ∃ m, env.download n = .failed m ∧ connection_error m = true) →
      (∀ n, env.reconnectOk n = true) →
      download_file env lfp = (none, ⟨false, 2, 3⟩)) ∧
    (∀ (env : FtpEnv) (lfp : String),
      env.download 0 = .completed →
      download_file env lfp = (some lfp, ⟨true, 0, 1⟩)) := by
  refine ⟨?_, ?_, ?_, ?_⟩
  · intro env lfp msg hd hc
    simp [download_file, download_file_aux, hd, hc]
  · intro env lfp msg hd hc
    simp [download_file, download_file_aux, hd, hc]
  · intro env lfp H hr
    obtain ⟨m0, hd0, hc0⟩ := H 0
    obtain ⟨m1, hd1, hc1⟩ := H 1
    obtain ⟨m2, hd2, hc2⟩ := H 2
    have s2 : download_file_aux env lfp 1 ⟨true, 2, 2⟩ = (none, ⟨false, 2, 3⟩) := by
      simp [download_file_aux, hd2, hc2]
    have s1 : download_file_aux env lfp 2 ⟨true, 1, 1⟩ = (none, ⟨false, 2, 3⟩) := by
      have h2 : download_file_aux env lfp 2 ⟨true, 1, 1⟩
          = download_file_aux env lfp 1 ⟨env.reconnectOk 1, 2, 2⟩ := by
        simp [download_file_aux, hd1, hc1]
      rw [h2, hr 1]
      exact s2
    have h0 : download_file env lfp
        = download_file_aux env lfp 2 ⟨env.reconnectOk 0, 1, 1⟩ := by
      simp [download_file, download_file_aux, hd0, hc0]
    rw [h0, hr 0]
    exact s1
  · intro env lfp hd
    simp [download_file, download_file_aux, hd]

/-- Witness for the amended C8: an always-broken connection with successful
reconnects is tried 3 times, then `None` is returned. -/
theorem download_retry_policy_witness :
    download_file ⟨fun _ => true, fun _ => .failed "[Errno 32] Broken pipe"⟩
        "/tmp/img/b.jpg"
      = (none, ⟨false, 2, 3⟩) :=
  download_retry_policy.2.2.1
    ⟨fun _ => true, fun _ => .failed "[Errno 32] Broken pipe"⟩ "/tmp/img/b.jpg"
    (fun _ => ⟨"[Errno 32] Broken pipe", rfl, by decide⟩) (fun _ => rfl)

/-! ## ProgressTracker / Logger

lib/progress_tracker.py:100-212 and lib/logger.py:85-112.  A log write is
`open(...).write(...)` with no exception handling anywhere on the path, so
the embedding threads an `ioOk` flag: when the filesystem write fails the
exception propagates as an `Except.error`.  The JSONL progress log is a
list of JSON records (one per line, flushed per write); the error log is a
list of structured entries. -/

structure ErrorEntry where
  timestamp : String
  worker_id : Option Nat
  filename : String
  error : String
  metadata : List (String × Json)

structure LogFiles where
  error_log : List ErrorEntry
  progress_log : List Json

/-- `Logger.log_progress` (lib/logger.py:85-112): build the record dict and
append it as one flushed JSONL line. -/
def log_progress (ioOk : Bool) (files : LogFiles)
    (filename status ts : String) (worker_id : Option Nat)
    (metadata : List (String × Json)) : Except String LogFiles :=
  let record : Json := .obj
    ([("filename", .str filename), ("status", .str status),
      ("timestamp", .str ts),
      ("worker_id", match worker_id with | some w => .num w | none => .null)]
     ++ metadata)
  if ioOk then .ok { files with progress_log := files.progress_log ++ [record] }
  else .error "OSError"

/-- `Logger.log_error` (lib/logger.py:48-83): append one formatted entry to
`error.log`. -/
def log_error (ioOk : Bool) (files : LogFiles)
    (filename error ts : String) (worker_id : Option Nat)
    (metadata : List (String × Json)) : Except String LogFiles :=
  if ioOk then
    .ok { files with error_log := files.error_log ++ [⟨ts, worker_id, filename, error, metadata⟩] }
  else .error "OSError"

def optStrJson : Option String → Json
  | some s => .str s
  | none => .null

/-- `Logger.log_success`. -/
def log_success (ioOk : Bool) (files : LogFiles) (filename : String)
    (record_id s3_key : Option String) (ts : String) (worker_id : Option Nat)
    (metadata : List (String × Json)) : Except String LogFiles :=
  log_progress ioOk files filename "success" ts worker_id
    ([("record_id", optStrJson record_id), ("s3_key", optStrJson s3_key)] ++ metadata)

/-- `Logger.log_failed`: progress line first, then the error-log entry; a
failure of the first write propagates before the second happens. -/
def log_failed (ioOk : Bool) (files : LogFiles) (filename error ts : String)
    (worker_id : Option Nat) (metadata : List (String × Json)) :
    Except String LogFiles :=
  match log_progress ioOk files filename "failed" ts worker_id
      ([("error", .str error)] ++ metadata) with
  | .error e => .error e
  | .ok f1 => log_error ioOk f1 filename error ts worker_id metadata

/-- `Logger.log_skipped`. -/
def log_skipped (ioOk : Bool) (files : LogFiles) (filename reason ts : String)
    (worker_id : Option Nat) (metadata : List (String × Json)) :
    Except String LogFiles :=
  log_progress ioOk files filename "skipped" ts worker_id
    ([("reason", .str reason)] ++ metadata)

/-- The tracker's run-scoped in-memory cache plus the log files. -/
structure TrackerState where
  files : LogFiles
  processed_files : List String
  failed_files : List (String × String)

/-- Set-style insert for `self.processed_files.add`. -/
def listInsert (l : List String) (x : String) : List String :=
  if l.contains x then l else l ++ [x]

/-- Dict-style assignment for `self.failed_files[filename] = error`. -/
def failedSet (l : List (String × String)) (k v : String) :
    List (String × String) :=
  match l with
  | [] => [(k, v)]
  | (k', v') :: rest =>
    if k' == k then (k', v) :: rest else (k', v') :: failedSet rest k v

/-- `ProgressTracker.save_success` (lib/progress_tracker.py:100-141), in the
default `use_logger = True` configuration. -/
def save_success (ioOk : Bool) (tr : TrackerState) (filename : String)
    (record_id s3_key : Option String) (ts : String) (worker_id : Option Nat)
    (metadata : List (String × Json)) : Except String TrackerState :=
  match log_success ioOk tr.files filename record_id s3_key ts worker_id metadata with
  | .error e => .error e
  | .ok files' =>
    .ok ⟨files', listInsert tr.processed_files filename,
         tr.failed_files.filter (fun p => p.1 != filename)⟩

/-- `ProgressTracker.save_failed` (lib/progress_tracker.py:143-174). -/
def save_failed (ioOk : Bool) (tr : TrackerState) (filename error : String)
    (ts : String) (worker_id : Option Nat)
    (metadata : List (String × Json)) : Except String TrackerState :=
  match log_failed ioOk tr.files filename error ts worker_id metadata with
  | .error e => .error e
  | .ok files' =>
    .ok ⟨files', tr.processed_files.filter (fun f => f != filename),
         failedSet tr.failed_files filename error⟩

/-- `ProgressTracker.save_skipped` (lib/progress_tracker.py:176-201): log
only, no cache update. -/
def save_skipped (ioOk : Bool) (tr : TrackerState) (filename reason : String)
    (ts : String) (worker_id : Option Nat)
    (metadata : List (String × Json)) : Except String TrackerState :=
  match log_skipped ioOk tr.files filename reason ts worker_id metadata with
  | .error e => .error e
  | .ok files' => .ok ⟨files', tr.processed_files, tr.failed_files⟩

/-- C9 counterexample: a failing log write makes `save_success` raise
(`OSError` propagates to the caller) — the outcome-recording operations are
not exception-safe. -/
theorem save_success_write_failure_raises :
    save_success false ⟨⟨[], []⟩, [], []⟩ "a.jpg" (some "uuid-1") (some "key-1")
        "2025-10-17T10:00:00" (some 1) [] = .error "OSError" ∧
    save_failed false ⟨⟨[], []⟩, [], []⟩ "a.jpg" "Timeout"
        "2025-10-17T10:00:00" (some 1) [] = .error "OSError" ∧
    save_skipped false ⟨⟨[], []⟩, [], []⟩ "a.jpg" "duplicate"
        "2025-10-17T10:00:00" (some 1) [] = .error "OSError" :=
  ⟨rfl, rfl, rfl⟩

/-- C9 (amended): `save_success` / `save_failed` / `save_skipped` contain no
exception handling: when the log write succeeds they return normally,
appending exactly one progress record (plus one error-log entry for
`save_failed`) and updating the in-memory cache, but a failure while
writing the log files propagates the exception to the caller. -/
theorem tracker_write_failure_propagates (tr : TrackerState)
    (filename err reason ts : String) (rid s3k : Option String)
    (wid : Option Nat) (md : List (String × Json)) :
    (∃ tr1, save_success true tr filename rid s3k ts wid md = .ok tr1 ∧
      tr1.files.progress_log.length = tr.files.progress_log.length + 1 ∧
      tr1.files.error_log = tr.files.error_log ∧
      tr1.processed_files = listInsert tr.processed_files filename) ∧
    save_success false tr filename rid s3k ts wid md = .error "OSError" ∧
    (∃ tr2, save_failed true tr filename err ts wid md = .ok tr2 ∧
      tr2.files.progress_log.length = tr.files.progress_log.length + 1 ∧
      tr2.files.error_log.length = tr.files.error_log.length + 1 ∧
      tr2.failed_files = failedSet tr.failed_files filename err) ∧
    save_failed false tr filename err ts wid md = .error "OSError" ∧
    (∃ tr3, save_skipped true tr filename reason ts wid md = .ok tr3 ∧
      tr3.files.progress_log.length = tr.files.progress_log.length + 1 ∧
      tr3.processed_files = tr.processed_files ∧
      tr3.failed_files = tr.failed_files) ∧
    save_skipped false tr filename reason ts wid md = .error "OSError" := by
  refine ⟨⟨_, rfl, ?_, rfl, rfl⟩, rfl, ⟨_, rfl, ?_, ?_, rfl⟩, rfl, ⟨_, rfl, ?_, rfl, rfl⟩, rfl⟩
  · simp [log_success, log_progress]
  · simp [log_failed, log_progress, log_error]
  · simp [log_failed, log_progress, log_error]
  · simp [log_skipped, log_progress]

end Rapa25
